import Mathlib

/-!
Verification of the submission verification & grading engine
(backend/compiler.py, backend/main.py task endpoints, backend/crud.py
task-submission persistence) against its natural-language specification.

The external-process boundary is the sole point where the engine touches
the host OS, so it is modelled as an environment value: for each process
the engine may spawn, the environment records whether that invocation
would complete (with an exit code and captured output), exceed its
timeout (`subprocess.TimeoutExpired`), or fail because the executable is
missing (`FileNotFoundError`).  The JSON decoding of the Go test runner's
event stream is likewise part of the environment: each output line is
recorded as blank, undecodable, or decoding to one test event.
Wall-clock fields (`execution_time`, timestamps) and workspace/file-system
faults outside the process boundary are not modelled.
-/

namespace ClaudeTests

/-- Outcome of one external process invocation (`subprocess.run`). -/
inductive ProcStatus where
  | exits (code : Int)
  | timedOut
  | notFound
deriving DecidableEq, Repr

/-- One decoded Go test event; only the `"Action"` key is inspected by the
engine (`event.get("Action")`, absent key giving `none`). -/
structure TestEvent where
  action : Option String
deriving DecidableEq, Repr

/-- One line of the test runner's stdout, as seen by the line-by-line JSON
decode in `compile_go`: blank lines are skipped before decoding, a line on
which `json.loads` raises is `malformed`, and otherwise the line decodes to
one test event. -/
inductive JLine where
  | blank
  | malformed
  | event (e : TestEvent)
deriving DecidableEq, Repr

/-- Python truthiness of an optional string (`None` and `""` are falsy). -/
def pyTruthyStr (o : Option String) : Bool :=
  match o with
  | some s => s ≠ ""
  | none => false

/-- Python truthiness of an optional list/dict (`None` and empty are falsy). -/
def pyTruthyList {α : Type} (o : Option (List α)) : Bool :=
  match o with
  | some l => !l.isEmpty
  | none => false

/-- `f"Compilation timeout ({timeout}s)"` from compiler.py. -/
def timeoutMsg (timeout : Nat) : String :=
  "Compilation timeout (" ++ toString timeout ++ "s)"

/-- The `FileNotFoundError` diagnostic of the Go driver. -/
def goNotFoundMsg : String :=
  "Go compiler not found. Make sure Go is installed and in PATH."

/-- The `FileNotFoundError` diagnostic of the Solidity driver. -/
def solcNotFoundMsg : String :=
  "Solc compiler not found. Install solc: npm install -g solc"

/-- `stderr.strip().split("\n")` filtered to the lines whose own strip is
non-empty (`[line for line in error_lines if line.strip()]`). -/
def parseErrorLines (s : String) : List String :=
  (s.trim.splitOn "\n").filter (fun l => l.trim ≠ "")

/-- The line loop of `compile_go` over the test runner's stdout: blank lines
are skipped, undecodable lines are dropped by the swallowed
`json.JSONDecodeError`, every decoded event is appended to `test_events`, and
events whose action is `"pass"` / `"fail"` bump the respective counter. -/
def tallyTestLines : List JLine → List TestEvent × Nat × Nat
  | [] => ([], 0, 0)
  | JLine.blank :: ls => tallyTestLines ls
  | JLine.malformed :: ls => tallyTestLines ls
  | JLine.event e :: ls =>
    let r := tallyTestLines ls
    (e :: r.1,
     (if e.action = some "pass" then 1 else 0) + r.2.1,
     (if e.action = some "fail" then 1 else 0) + r.2.2)

/-- The events that survive the line-by-line decode, in stream order. -/
def decodedEvents : List JLine → List TestEvent
  | [] => []
  | JLine.event e :: ls => e :: decodedEvents ls
  | _ :: ls => decodedEvents ls

/-- Environment for one `compile_go` call: the three processes it may spawn
(`go mod init`, `go build`, `go test -v -json`) and their captured output.
`testLines` is the line-by-line JSON decode of `testStdout`. -/
structure GoEnv where
  modInitStatus : ProcStatus
  buildStatus : ProcStatus
  buildStdout : String
  buildStderr : String
  testStatus : ProcStatus
  testStdout : String
  testStderr : String
  testLines : List JLine
deriving DecidableEq, Repr

/-- The `test_results` dictionary built by `compile_go`. -/
structure TestResults where
  passed : Bool
  passed_count : Nat
  failed_count : Nat
  output : String
  stderr : String
  events : List TestEvent
deriving DecidableEq, Repr

/-- The result dictionary of `compile_go`. -/
structure GoResult where
  success : Bool
  compiled : Bool
  output : String
  errors : List String
  test_results : Option TestResults
deriving DecidableEq, Repr

/-- `CodeCompiler.compile_go`.  The `go mod init` exit code is captured but
never inspected; a `TimeoutExpired` or `FileNotFoundError` raised by any of
the three invocations reaches the shared handlers, which overwrite `errors`
and leave the fields already assigned (notably `compiled`, set right after
`go build` returns) in place. -/
def compile_go (env : GoEnv) (code : String) (test_code : Option String)
    (timeout : Nat) : GoResult :=
  match env.modInitStatus with
  | ProcStatus.timedOut =>
    { success := false, compiled := false, output := "",
      errors := [timeoutMsg timeout], test_results := none }
  | ProcStatus.notFound =>
    { success := false, compiled := false, output := "",
      errors := [goNotFoundMsg], test_results := none }
  | ProcStatus.exits _ =>
    match env.buildStatus with
    | ProcStatus.timedOut =>
      { success := false, compiled := false, output := "",
        errors := [timeoutMsg timeout], test_results := none }
    | ProcStatus.notFound =>
      { success := false, compiled := false, output := "",
        errors := [goNotFoundMsg], test_results := none }
    | ProcStatus.exits buildCode =>
      if buildCode ≠ 0 then
        { success := false, compiled := false, output := env.buildStdout,
          errors := parseErrorLines env.buildStderr, test_results := none }
      else if pyTruthyStr test_code then
        match env.testStatus with
        | ProcStatus.timedOut =>
          { success := false, compiled := true, output := env.buildStdout,
            errors := [timeoutMsg timeout], test_results := none }
        | ProcStatus.notFound =>
          { success := false, compiled := true, output := env.buildStdout,
            errors := [goNotFoundMsg], test_results := none }
        | ProcStatus.exits testCode =>
          let t := tallyTestLines env.testLines
          let tr : TestResults :=
            { passed := testCode == 0, passed_count := t.2.1,
              failed_count := t.2.2, output := env.testStdout,
              stderr := env.testStderr, events := t.1 }
          { success := tr.passed, compiled := true, output := env.buildStdout,
            errors := [], test_results := some tr }
      else
        { success := true, compiled := true, output := env.buildStdout,
          errors := [], test_results := none }

/-- Environment for one `compile_solidity` call: the single `solc` process. -/
structure SolEnv where
  status : ProcStatus
  stdout : String
  stderr : String
deriving DecidableEq, Repr

/-- The result dictionary of `compile_solidity`; `abi` and `bytecode` are
declared but never populated in the source. -/
structure SolResult where
  success : Bool
  compiled : Bool
  output : String
  errors : List String
  abi : Option String
  bytecode : Option String
deriving DecidableEq, Repr

/-- `CodeCompiler.compile_solidity`. -/
def compile_solidity (env : SolEnv) (code : String) (timeout : Nat) : SolResult :=
  match env.status with
  | ProcStatus.timedOut =>
    { success := false, compiled := false, output := "",
      errors := [timeoutMsg timeout], abi := none, bytecode := none }
  | ProcStatus.notFound =>
    { success := false, compiled := false, output := "",
      errors := [solcNotFoundMsg], abi := none, bytecode := none }
  | ProcStatus.exits c =>
    if c ≠ 0 then
      { success := false, compiled := false, output := env.stdout,
        errors := parseErrorLines env.stderr, abi := none, bytecode := none }
    else
      { success := true, compiled := true, output := env.stdout,
        errors := [], abi := none, bytecode := none }

/-! ## Persistence layer (crud.py) and data model -/

/-- The stored compilation result of a submission: the whole result
dictionary returned by the driver that ran. -/
inductive CompilationResult where
  | goRes (r : GoResult)
  | solRes (r : SolResult)
deriving DecidableEq, Repr

/-- `result["compiled"]` of either driver's result dictionary. -/
def CompilationResult.compiledF : CompilationResult → Bool
  | CompilationResult.goRes r => r.compiled
  | CompilationResult.solRes r => r.compiled

/-- `result["errors"]` of either driver's result dictionary. -/
def CompilationResult.errorsF : CompilationResult → List String
  | CompilationResult.goRes r => r.errors
  | CompilationResult.solRes r => r.errors

/-- `result["output"]` of either driver's result dictionary. -/
def CompilationResult.outputF : CompilationResult → String
  | CompilationResult.goRes r => r.output
  | CompilationResult.solRes r => r.output

/-- `result.get("test_results")`: the Solidity result dictionary has no such
key, so `dict.get` yields `None` there. -/
def CompilationResult.testResultsF : CompilationResult → Option TestResults
  | CompilationResult.goRes r => r.test_results
  | CompilationResult.solRes _ => none

/-- One `TaskSubmission` row. -/
structure Submission where
  id : Nat
  task_id : Nat
  user_code : Option String
  compilation_result : Option CompilationResult
  test_results : Option TestResults
  review_answers : Option (List (String × String))
  found_issues : Option (List String)
  improved_code : Option String
  passed : Bool
  attempts : Nat
  time_spent : Option Nat
deriving DecidableEq, Repr

/-- The `task_submissions` table: rows in creation order, plus the next
autoincrement id the database would assign. -/
structure Store where
  subs : List Submission
  nextId : Nat
deriving DecidableEq, Repr

/-- `db.query(TaskSubmission).filter(TaskSubmission.task_id == task_id).count()`. -/
def countByTask (store : Store) (task_id : Nat) : Nat :=
  (store.subs.filter (fun s => s.task_id == task_id)).length

/-- `crud.create_task_submission`: counts the rows already stored for the
task, then inserts one row with `attempts = previous_attempts + 1`. -/
def create_task_submission (store : Store) (task_id : Nat)
    (user_code : Option String) (compilation_result : Option CompilationResult)
    (test_results : Option TestResults)
    (review_answers : Option (List (String × String)))
    (found_issues : Option (List String)) (improved_code : Option String)
    (passed : Bool) (time_spent : Option Nat) : Submission × Store :=
  let previous_attempts := countByTask store task_id
  let submission : Submission :=
    { id := store.nextId, task_id := task_id, user_code := user_code,
      compilation_result := compilation_result, test_results := test_results,
      review_answers := review_answers, found_issues := found_issues,
      improved_code := improved_code, passed := passed,
      attempts := previous_attempts + 1, time_spent := time_spent }
  (submission, { subs := store.subs ++ [submission], nextId := store.nextId + 1 })

/-- `crud.get_task_submissions`: the task's rows ordered by `submitted_at`
descending (creation order reversed), limited. -/
def get_task_submissions (store : Store) (task_id : Nat) (limit : Nat) :
    List Submission :=
  ((store.subs.filter (fun s => s.task_id == task_id)).reverse).take limit

/-- One `Task` row, as read by the task endpoints. -/
structure Task where
  id : Nat
  title : String
  description : String
  task_type : String
  block : String
  difficulty : String
  language : String
  estimated_time : Option Nat
  requirements : Option (List String)
  tags : Option (List String)
  order : Nat
  topic : Option String
  starter_code : Option String
  test_code : Option String
  hints : Option (List String)
  ai_code : Option String
  review_questions : Option (List String)
  expected_issues : Option (List String)
deriving DecidableEq, Repr

/-! ## Grader layer (main.py task endpoints) -/

/-- The request body `TaskSubmissionRequest`. -/
structure TaskSubmissionRequest where
  user_code : Option String
  review_answers : Option (List (String × String))
  found_issues : Option (List String)
  improved_code : Option String
  time_spent : Option Nat
deriving DecidableEq, Repr

/-- An `HTTPException(status_code, detail)`. -/
inductive HErr where
  | http (status : Nat) (detail : String)
deriving DecidableEq, Repr

/-- The environments of the two drivers a write submission may invoke. -/
structure Env where
  goEnv : GoEnv
  solEnv : SolEnv
deriving DecidableEq, Repr

/-- The response dictionary of `_submit_write_task`; the nested
`compilation` object is flattened into the `compiled`/`errors`/`output`
fields, and `hints := none` models the absent key. -/
structure WriteResponse where
  success : Bool
  submission_id : Nat
  compiled : Bool
  errors : List String
  output : String
  test_results : Option TestResults
  attempts : Nat
  hints : Option (List String)
deriving DecidableEq, Repr

/-- The language dispatch of `_submit_write_task` (compile plus the
language-specific `passed` computation); an unsupported language raises
HTTP 400.  For Go, `passed = result["success"] and (result["test_results"]
["passed"] if task.test_code else result["compiled"])`, with Python's
short-circuiting `and` guarding the `test_results` access. -/
def langCompile (task : Task) (user_code : String) (env : Env) :
    Except HErr (CompilationResult × Bool) :=
  if task.language == "go" then
    let result := compile_go env.goEnv user_code task.test_code 30
    Except.ok (CompilationResult.goRes result,
      result.success &&
        (if pyTruthyStr task.test_code then
          (result.test_results.map TestResults.passed).getD false
         else result.compiled))
  else if task.language == "solidity" then
    let result := compile_solidity env.solEnv user_code 30
    Except.ok (CompilationResult.solRes result, result.compiled)
  else
    Except.error (HErr.http 400 ("Язык " ++ task.language ++ " не поддерживается"))

/-- `_submit_write_task`: validation, compile, persist, respond (with hint
exposure on failed retries). -/
def submit_write_task (task : Task) (sd : TaskSubmissionRequest) (env : Env)
    (store : Store) : Except HErr (WriteResponse × Store) :=
  if pyTruthyStr sd.user_code = false then
    Except.error (HErr.http 400 "user_code обязателен для Write задач")
  else
    match langCompile task (sd.user_code.getD "") env with
    | Except.error e => Except.error e
    | Except.ok (res, passed) =>
      let created := create_task_submission store task.id sd.user_code
        (some res) res.testResultsF none none none passed sd.time_spent
      let submission := created.1
      Except.ok
        ({ success := passed,
           submission_id := submission.id,
           compiled := res.compiledF,
           errors := res.errorsF,
           output := res.outputF,
           test_results := res.testResultsF,
           attempts := submission.attempts,
           hints :=
             if !passed && decide (2 ≤ submission.attempts) &&
                 pyTruthyList task.hints then
               some ((task.hints.getD []).take (submission.attempts - 1))
             else none },
         created.2)

/-- The structured content of the review-feedback message built by
`_generate_review_feedback`: which tier fired, the counts interpolated into
the message, and the set of missed issues it names (the source joins that
set in Python's unspecified set-iteration order, so the rendered string is
kept structured here). -/
inductive Feedback where
  | fullMatch
  | goodMatch (foundCount total : Nat) (missing : Finset String)
  | weakMatch (foundCount total : Nat) (missing : Finset String)
deriving DecidableEq

/-- `_generate_review_feedback(matched, expected, found)`; `found` is an
unused parameter in the source as well. -/
def generate_review_feedback (matched : Finset String) (expected : List String)
    (found : List String) : Feedback :=
  if matched.card == expected.length then
    Feedback.fullMatch
  else if (matched.card : ℚ) ≥ (expected.length : ℚ) * (0.6 : ℚ) then
    Feedback.goodMatch matched.card expected.length (expected.toFinset \ matched)
  else
    Feedback.weakMatch matched.card expected.length (expected.toFinset \ matched)

/-- Round half to even, as Python's `round` does on exact values. -/
def roundHalfEven (q : ℚ) : ℤ :=
  let f : ℤ := ⌊q⌋
  let r : ℚ := q - (f : ℚ)
  if r < 1/2 then f
  else if 1/2 < r then f + 1
  else if 2 ∣ f then f else f + 1

/-- `round(x, 1)` on an exact rational. -/
def pyRound1 (q : ℚ) : ℚ := (roundHalfEven (q * 10) : ℚ) / 10

/-- The response dictionary of `_submit_review_task`; `matched_issues` is a
set in the source (`list(matched_issues)` is emitted in unspecified set
order), so it is kept as a `Finset`. -/
structure ReviewResponse where
  success : Bool
  submission_id : Nat
  score : ℚ
  matched_issues : Finset String
  expected_issues : List String
  found_issues : List String
  attempts : Nat
  feedback : Feedback
deriving DecidableEq

/-- `_submit_review_task`: validation, match found issues against the
task's expected issues, score, persist, respond. -/
def submit_review_task (task : Task) (sd : TaskSubmissionRequest)
    (store : Store) : Except HErr (ReviewResponse × Store) :=
  if !pyTruthyList sd.review_answers && !pyTruthyList sd.found_issues then
    Except.error (HErr.http 400 "review_answers или found_issues обязательны для Review задач")
  else
    let found_issues := sd.found_issues.getD []
    let expected_issues := task.expected_issues.getD []
    let matched_issues := found_issues.toFinset ∩ expected_issues.toFinset
    let score : ℚ :=
      if expected_issues ≠ [] then
        (matched_issues.card : ℚ) / (expected_issues.length : ℚ)
      else 0
    let passed : Bool := decide ((0.6 : ℚ) ≤ score)
    let created := create_task_submission store task.id none none none
      sd.review_answers sd.found_issues sd.improved_code passed sd.time_spent
    let submission := created.1
    Except.ok
      ({ success := passed,
         submission_id := submission.id,
         score := pyRound1 (score * 100),
         matched_issues := matched_issues,
         expected_issues := expected_issues,
         found_issues := found_issues,
         attempts := submission.attempts,
         feedback := generate_review_feedback matched_issues expected_issues
           found_issues },
       created.2)

/-- The response dictionary of the task-detail endpoint `get_task`.  The
type-dependent keys are doubly optional: the outer `none` models a key that
is absent from the response, `some v` a key present with value `v` (so
`some none` is a key present with JSON `null`). -/
structure TaskDetail where
  id : Nat
  title : String
  description : String
  task_type : String
  block : String
  difficulty : String
  language : String
  estimated_time : Option Nat
  requirements : Option (List String)
  tags : Option (List String)
  order : Nat
  topic_name : Option String
  previous_attempts : Nat
  ai_code : Option (Option String)
  review_questions : Option (Option (List String))
  expected_issues : Option (Option (List String))
  starter_code : Option (Option String)
  test_code : Option (Option String)
  hints : Option (Option (List String))
deriving DecidableEq, Repr

/-- The task-detail endpoint `get_task` (the 404 branch for a missing task
aside): base fields, the latest submission's `attempts`, and the
type-dependent fields — for review tasks `expected_issues` is the literal
`None`, never the stored labels. -/
def get_task (task : Task) (store : Store) : TaskDetail :=
  let submissions := get_task_submissions store task.id 1
  let attempts := match submissions with
    | s :: _ => s.attempts
    | [] => 0
  let base : TaskDetail :=
    { id := task.id, title := task.title, description := task.description,
      task_type := task.task_type, block := task.block,
      difficulty := task.difficulty, language := task.language,
      estimated_time := task.estimated_time,
      requirements := task.requirements, tags := task.tags,
      order := task.order, topic_name := task.topic,
      previous_attempts := attempts,
      ai_code := none, review_questions := none, expected_issues := none,
      starter_code := none, test_code := none, hints := none }
  if task.task_type == "review" then
    { base with
      ai_code := some task.ai_code,
      review_questions := some task.review_questions,
      expected_issues := some none }
  else
    { base with
      starter_code := some task.starter_code,
      test_code := some task.test_code,
      hints := some task.hints }

/-- The response of the dispatching endpoint `submit_task_solution`. -/
inductive SubmitResponse where
  | write (r : WriteResponse)
  | review (r : ReviewResponse)
deriving DecidableEq

/-- `submit_task_solution`: look the task up, 404 if absent, then dispatch
on the task type. -/
def submit_task_solution (tasks : List Task) (task_id : Nat)
    (sd : TaskSubmissionRequest) (env : Env) (store : Store) :
    Except HErr (SubmitResponse × Store) :=
  match tasks.find? (fun t => t.id == task_id) with
  | none => Except.error (HErr.http 404 "Задача не найдена")
  | some task =>
    if task.task_type == "review" then
      (submit_review_task task sd store).map
        (fun p => (SubmitResponse.review p.1, p.2))
    else
      (submit_write_task task sd env store).map
        (fun p => (SubmitResponse.write p.1, p.2))

/-! ## Spec-side definitions used to state the claims -/

/-- Lift a predicate on `(response, updated store)` over the grader's
`Except` result; a rejected (`HTTPException`) call creates no record and
the predicate is vacuously satisfied. -/
def okP {α : Type} (x : Except HErr (α × Store)) (P : α → Store → Prop) : Prop :=
  match x with
  | Except.ok p => P p.1 p.2
  | Except.error _ => True

/-- Whether the recorded outcome of the Go test-runner invocation is a
completed run with exit code 0 — the spec's "test phase's passed flag". -/
def goTestExitZero (g : GoEnv) : Bool :=
  match g.testStatus with
  | ProcStatus.exits c => c == 0
  | _ => false

/-- The spec's `matched = foundIssues ∩ expectedIssues` — exact,
case-sensitive string equality with set semantics. -/
def matchedSpec (found expected : List String) : Finset String :=
  found.toFinset ∩ expected.toFinset

/-- The spec's review score: `|matched| / |expectedIssues|` when
`expectedIssues` is non-empty, else `0` (the denominator counts the stored
expected list's entries). -/
def scoreSpec (found expected : List String) : ℚ :=
  if expected = [] then 0
  else (matchedSpec found expected).card / (expected.length : ℚ)

/-- Whether the grader call succeeded (no `HTTPException` was raised). -/
def isOkE {α : Type} (x : Except HErr α) : Bool :=
  match x with
  | Except.ok _ => true
  | Except.error _ => false

/-- The write verdict's test clause applies exactly when the build-and-test
(Go) driver ran with a non-empty test source; the compile-only (Solidity)
driver has no test phase. -/
def goTestPhase (task : Task) : Bool :=
  task.language == "go" && pyTruthyStr task.test_code

/-- `compile_go` raises `TimeoutExpired` during the compile phase: either
`go mod init` or `go build` exceeded its limit. -/
def goCompilePhaseTimeout (g : GoEnv) : Prop :=
  g.modInitStatus = ProcStatus.timedOut ∨
    (∃ c, g.modInitStatus = ProcStatus.exits c ∧
      g.buildStatus = ProcStatus.timedOut)

/-- `compile_go` raises `TimeoutExpired` during the test phase: the build
succeeded, a non-empty test source made it spawn `go test`, and that run
exceeded its limit. -/
def goTestPhaseTimeout (g : GoEnv) (test_code : Option String) : Prop :=
  ∃ c, g.modInitStatus = ProcStatus.exits c ∧
    g.buildStatus = ProcStatus.exits 0 ∧
    pyTruthyStr test_code = true ∧
    g.testStatus = ProcStatus.timedOut

instance instDecEqExceptR {α β : Type} [DecidableEq α] [DecidableEq β] :
    DecidableEq (Except α β) := fun x y =>
  match x, y with
  | Except.ok a, Except.ok b =>
    if h : a = b then isTrue (by rw [h])
    else isFalse (fun hc => h (by injection hc))
  | Except.error a, Except.error b =>
    if h : a = b then isTrue (by rw [h])
    else isFalse (fun hc => h (by injection hc))
  | Except.ok _, Except.error _ => isFalse (fun hc => by injection hc)
  | Except.error _, Except.ok _ => isFalse (fun hc => by injection hc)

@[simp] lemma okP_ok {α : Type} (p : α × Store) (P : α → Store → Prop) :
    okP (Except.ok p) P ↔ P p.1 p.2 := Iff.rfl

@[simp] lemma okP_error {α : Type} (e : HErr) (P : α → Store → Prop) :
    okP (Except.error e : Except HErr (α × Store)) P ↔ True := Iff.rfl

lemma pyTruthyList_eq_true_iff {α : Type} (o : Option (List α)) :
    pyTruthyList o = true ↔ o.getD [] ≠ [] := by
  cases o with
  | none => simp [pyTruthyList]
  | some l => cases l <;> simp [pyTruthyList]

/-! ## Concrete inputs used by witnesses and counterexamples -/

/-- A Go environment in which every process completes silently. -/
def quietGoEnv : GoEnv :=
  { modInitStatus := ProcStatus.exits 0, buildStatus := ProcStatus.exits 0,
    buildStdout := "", buildStderr := "", testStatus := ProcStatus.exits 0,
    testStdout := "", testStderr := "", testLines := [] }

/-- A Solidity environment in which the compile completes silently. -/
def quietSolEnv : SolEnv :=
  { status := ProcStatus.exits 0, stdout := "", stderr := "" }

def quietEnv : Env := { goEnv := quietGoEnv, solEnv := quietSolEnv }

/-- A minimal Go write task. -/
def baseTask : Task :=
  { id := 1, title := "t", description := "", task_type := "write",
    block := "write", difficulty := "easy", language := "go",
    estimated_time := none, requirements := none, tags := none, order := 0,
    topic := none, starter_code := none, test_code := none, hints := none,
    ai_code := none, review_questions := none, expected_issues := none }

/-- A minimal write-submission request. -/
def baseReq : TaskSubmissionRequest :=
  { user_code := some "package main", review_answers := none,
    found_issues := none, improved_code := none, time_spent := none }

def emptyStore : Store := { subs := [], nextId := 1 }

/-! ## Claims -/

/-- C5: the event-stream parse decodes each non-blank line independently as
one JSON test event, silently drops any line that fails to decode without
aborting the parse (removing a malformed line from anywhere in the stream
changes nothing), counts one passed test per event whose action is "pass"
and one failed test per event whose action is "fail", records all decoded
events without tallying other actions, and on 3 "pass" events, 1 malformed
line and 1 "fail" event yields passedTests = 3 and failedTests = 1. -/
theorem c5_event_stream_parse :
    (∀ lines : List JLine,
      (tallyTestLines lines).1 = decodedEvents lines ∧
      (tallyTestLines lines).2.1 =
        (decodedEvents lines).countP (fun e => e.action == some "pass") ∧
      (tallyTestLines lines).2.2 =
        (decodedEvents lines).countP (fun e => e.action == some "fail")) ∧
    (∀ pre post : List JLine,
      tallyTestLines (pre ++ JLine.malformed :: post) =
        tallyTestLines (pre ++ post)) ∧
    tallyTestLines
        [JLine.event ⟨some "pass"⟩, JLine.event ⟨some "pass"⟩,
         JLine.event ⟨some "pass"⟩, JLine.malformed,
         JLine.event ⟨some "fail"⟩] =
      ([⟨some "pass"⟩, ⟨some "pass"⟩, ⟨some "pass"⟩, ⟨some "fail"⟩], 3, 1) := by
  refine ⟨?_, ?_, by decide⟩
  · intro lines
    induction lines with
    | nil => simp [tallyTestLines, decodedEvents]
    | cons l ls ih =>
      cases l with
      | blank => simpa [tallyTestLines, decodedEvents] using ih
      | malformed => simpa [tallyTestLines, decodedEvents] using ih
      | event e =>
        obtain ⟨ih1, ih2, ih3⟩ := ih
        simp only [tallyTestLines, decodedEvents, List.countP_cons]
        refine ⟨by simp [ih1], ?_, ?_⟩
        · by_cases h : e.action = some "pass" <;> simp [h, ih2] <;> omega
        · by_cases h : e.action = some "fail" <;> simp [h, ih3] <;> omega
  · intro pre post
    induction pre with
    | nil => simp [tallyTestLines]
    | cons l ls ih => cases l <;> simp [tallyTestLines, ih]

/-- C5 witness: the general part instantiated at the concrete
3-pass/1-malformed/1-fail stream. -/
theorem c5_event_stream_parse_witness :
    (tallyTestLines
        [JLine.event ⟨some "pass"⟩, JLine.event ⟨some "pass"⟩,
         JLine.event ⟨some "pass"⟩, JLine.malformed,
         JLine.event ⟨some "fail"⟩]).2.1 =
      (decodedEvents
        [JLine.event ⟨some "pass"⟩, JLine.event ⟨some "pass"⟩,
         JLine.event ⟨some "pass"⟩, JLine.malformed,
         JLine.event ⟨some "fail"⟩]).countP (fun e => e.action == some "pass") :=
  (c5_event_stream_parse.1
    [JLine.event ⟨some "pass"⟩, JLine.event ⟨some "pass"⟩,
     JLine.event ⟨some "pass"⟩, JLine.malformed,
     JLine.event ⟨some "fail"⟩]).2.1

/-- C3: for every task and every submission created for it — write or
review path alike — the stored submission's attempt ordinal equals 1 + the
number of submissions previously stored for that task identifier, computed
against the store passed to the call, and the response echoes it. -/
theorem c3_attempt_ordinal (task : Task) (sd : TaskSubmissionRequest)
    (env : Env) (store : Store) :
    okP (submit_write_task task sd env store) (fun resp st' =>
      ∃ sub, st'.subs = store.subs ++ [sub] ∧ sub.task_id = task.id ∧
        sub.attempts = 1 + countByTask store task.id ∧
        resp.attempts = sub.attempts) ∧
    okP (submit_review_task task sd store) (fun resp st' =>
      ∃ sub, st'.subs = store.subs ++ [sub] ∧ sub.task_id = task.id ∧
        sub.attempts = 1 + countByTask store task.id ∧
        resp.attempts = sub.attempts) := by
  constructor
  · unfold submit_write_task
    by_cases hv : pyTruthyStr sd.user_code = false
    · simp [hv]
    · simp only [hv, if_false]
      cases hlc : langCompile task (sd.user_code.getD "") env with
      | error e => simp
      | ok p =>
        simp only [okP_ok, create_task_submission]
        exact ⟨_, rfl, rfl, Nat.add_comm _ 1, rfl⟩
  · unfold submit_review_task
    by_cases hv : (!pyTruthyList sd.review_answers &&
        !pyTruthyList sd.found_issues) = true
    · simp [hv]
    · simp only [hv, if_false, Bool.false_eq_true]
      simp only [okP_ok, create_task_submission]
      exact ⟨_, rfl, rfl, Nat.add_comm _ 1, rfl⟩

/-- C3 witness: a first write submission on an empty store gets attempt
ordinal 1. -/
theorem c3_attempt_ordinal_witness :
    okP (submit_write_task baseTask baseReq quietEnv emptyStore)
      (fun resp st' =>
        ∃ sub, st'.subs = emptyStore.subs ++ [sub] ∧
          sub.task_id = baseTask.id ∧
          sub.attempts = 1 + countByTask emptyStore baseTask.id ∧
          resp.attempts = sub.attempts) :=
  (c3_attempt_ordinal baseTask baseReq quietEnv emptyStore).1

/-- C8: a write-task submission with empty or absent submitted code is
rejected with the missing-user_code validation error (HTTP 400,
"user_code обязателен для Write задач") for every environment and store:
the result is the same whatever the external processes would do — so none
is spawned — and an error result carries no updated store — so no
submission record is created. -/
theorem c8_missing_user_code (task : Task) (sd : TaskSubmissionRequest)
    (env : Env) (store : Store) (h : pyTruthyStr sd.user_code = false) :
    submit_write_task task sd env store =
      Except.error (HErr.http 400 "user_code обязателен для Write задач") := by
  simp [submit_write_task, h]

/-- C8 witness: an empty `user_code` on a concrete Go task is rejected. -/
theorem c8_missing_user_code_witness :
    submit_write_task baseTask { baseReq with user_code := some "" }
        quietEnv emptyStore =
      Except.error (HErr.http 400 "user_code обязателен для Write задач") :=
  c8_missing_user_code baseTask { baseReq with user_code := some "" }
    quietEnv emptyStore (by decide)

/-- C10: the task-detail endpoint answers `expected_issues = None` for
every review task whatever defect labels are stored, and two review tasks
differing only in their stored labels produce identical responses — the
hidden labels are never revealed before submission. -/
theorem c10_expected_issues_hidden (task : Task) (store : Store)
    (h : task.task_type = "review") :
    (get_task task store).expected_issues = some none ∧
    ∀ l1 l2 : Option (List String),
      get_task { task with expected_issues := l1 } store =
        get_task { task with expected_issues := l2 } store := by
  constructor
  · simp [get_task, h]
  · intro l1 l2
    rfl

/-- C10 witness: a concrete review task with stored labels answers
`expected_issues = None`, and swapping its labels list changes nothing. -/
theorem c10_expected_issues_hidden_witness :
    (get_task { baseTask with
        task_type := "review"
        expected_issues := some ["sql injection"] } emptyStore).expected_issues
      = some none ∧
    get_task { baseTask with
        task_type := "review"
        expected_issues := some ["sql injection"] } emptyStore =
      get_task { baseTask with
        task_type := "review"
        expected_issues := some ["race condition", "off by one"] } emptyStore :=
  ⟨(c10_expected_issues_hidden
      { baseTask with
        task_type := "review"
        expected_issues := some ["sql injection"] } emptyStore rfl).1,
   (c10_expected_issues_hidden
      { baseTask with task_type := "review" } emptyStore rfl).2
     (some ["sql injection"]) (some ["race condition", "off by one"])⟩

/-- The Go driver's result always relates the write verdict expression of
`_submit_write_task` to `compiled AND (test exit code zero when a test
source is present, else true)`, the test phase is skipped when the test
source is empty, and any recorded test phase's `passed` flag is exactly
"the test runner exited 0". -/
lemma compile_go_verdict (g : GoEnv) (code : String) (tc : Option String)
    (timeout : Nat) :
    ((compile_go g code tc timeout).success &&
        (if pyTruthyStr tc then
          ((compile_go g code tc timeout).test_results.map
            TestResults.passed).getD false
         else (compile_go g code tc timeout).compiled))
      = ((compile_go g code tc timeout).compiled &&
          (if pyTruthyStr tc then goTestExitZero g else true)) ∧
    (pyTruthyStr tc = false → (compile_go g code tc timeout).test_results = none) ∧
    (∀ tr, (compile_go g code tc timeout).test_results = some tr →
      tr.passed = goTestExitZero g) := by
  obtain ⟨mi, bs, bso, bse, ts, tso, tse, tl⟩ := g
  cases mi with
  | timedOut => simp [compile_go]
  | notFound => simp [compile_go]
  | exits mc =>
    cases bs with
    | timedOut => simp [compile_go]
    | notFound => simp [compile_go]
    | exits bc =>
      by_cases hbc : bc = 0
      · subst hbc
        by_cases htc : pyTruthyStr tc = true
        · cases ts with
          | timedOut => simp [compile_go, htc, goTestExitZero]
          | notFound => simp [compile_go, htc, goTestExitZero]
          | exits t => simp [compile_go, htc, goTestExitZero]
        · have htc' : pyTruthyStr tc = false := by
            simpa using htc
          simp [compile_go, htc']
      · simp [compile_go, hbc]

/-- The language dispatch preserves the verdict shape: whenever it answers
(no unsupported-language rejection), the computed `passed` equals
`compiled && (test exit code zero when the Go driver ran with a test
source, else true)`, the stored test results are absent when no test
source is present, and a recorded test phase's flag is the runner's exit
code being 0. -/
lemma langCompile_verdict (task : Task) (uc : String) (env : Env)
    (res : CompilationResult) (passed : Bool)
    (h : langCompile task uc env = Except.ok (res, passed)) :
    passed = (res.compiledF &&
      (if goTestPhase task then goTestExitZero env.goEnv else true)) ∧
    (pyTruthyStr task.test_code = false → res.testResultsF = none) ∧
    (∀ tr, res.testResultsF = some tr → tr.passed = goTestExitZero env.goEnv) := by
  unfold langCompile at h
  by_cases hgo : (task.language == "go") = true
  · rw [if_pos hgo] at h
    obtain ⟨h1, h2⟩ : CompilationResult.goRes
        (compile_go env.goEnv uc task.test_code 30) = res ∧
        ((compile_go env.goEnv uc task.test_code 30).success &&
          (if pyTruthyStr task.test_code then
            ((compile_go env.goEnv uc task.test_code 30).test_results.map
              TestResults.passed).getD false
           else (compile_go env.goEnv uc task.test_code 30).compiled))
          = passed := by
      simpa using h
    subst h1
    subst h2
    have hmain := compile_go_verdict env.goEnv uc task.test_code 30
    refine ⟨?_, hmain.2.1, hmain.2.2⟩
    have hphase : goTestPhase task = pyTruthyStr task.test_code := by
      simp [goTestPhase, hgo]
    rw [hphase]
    exact hmain.1
  · by_cases hsol : (task.language == "solidity") = true
    · rw [if_neg (by simpa using hgo), if_pos hsol] at h
      obtain ⟨h1, h2⟩ : CompilationResult.solRes
          (compile_solidity env.solEnv uc 30) = res ∧
          (compile_solidity env.solEnv uc 30).compiled = passed := by
        simpa using h
      subst h1
      subst h2
      have hphase : goTestPhase task = false := by
        have : (task.language == "go") = false := by
          simpa using hgo
        simp [goTestPhase, this]
      refine ⟨by simp [hphase, CompilationResult.compiledF], ?_, ?_⟩
      · intro _
        rfl
      · intro tr htr
        simp [CompilationResult.testResultsF] at htr
    · rw [if_neg (by simpa using hgo), if_neg (by simpa using hsol)] at h
      simp at h

/-- C1: for every write-task submission the engine answers, the verdict is
`passed = compiled AND (test phase's passed flag if a test source is
present for the build-and-test driver, else true)`; the recorded test
phase's `passed` flag is exactly "the test runner exited 0"; and when the
task's test source is empty or absent the test phase is skipped entirely
(no test results are recorded), so `passed = compiled`. -/
theorem c1_write_verdict (task : Task) (sd : TaskSubmissionRequest)
    (env : Env) (store : Store) :
    okP (submit_write_task task sd env store) (fun resp _ =>
      resp.success = (resp.compiled &&
        (if goTestPhase task then goTestExitZero env.goEnv else true)) ∧
      (pyTruthyStr task.test_code = false → resp.test_results = none) ∧
      (∀ tr, resp.test_results = some tr →
        tr.passed = goTestExitZero env.goEnv)) := by
  unfold submit_write_task
  by_cases hv : pyTruthyStr sd.user_code = false
  · simp [hv]
  · rw [if_neg hv]
    cases hlc : langCompile task (sd.user_code.getD "") env with
    | error e => simp
    | ok p =>
      obtain ⟨res, passed⟩ := p
      have hlv := langCompile_verdict task (sd.user_code.getD "") env res
        passed hlc
      simpa only [okP_ok] using hlv

/-- The explicit response and store produced by `_submit_write_task` when
validation passes and the language is supported. -/
lemma submit_write_task_ok_shape (task : Task) (sd : TaskSubmissionRequest)
    (env : Env) (store : Store) (res : CompilationResult) (passed : Bool)
    (h : langCompile task (sd.user_code.getD "") env = Except.ok (res, passed))
    (hv : ¬ pyTruthyStr sd.user_code = false) :
    submit_write_task task sd env store =
      Except.ok
        ({ success := passed,
           submission_id := store.nextId,
           compiled := res.compiledF,
           errors := res.errorsF,
           output := res.outputF,
           test_results := res.testResultsF,
           attempts := countByTask store task.id + 1,
           hints :=
             if !passed && decide (2 ≤ countByTask store task.id + 1) &&
                 pyTruthyList task.hints then
               some ((task.hints.getD []).take (countByTask store task.id + 1 - 1))
             else none },
         { subs := store.subs ++
             [{ id := store.nextId, task_id := task.id,
                user_code := sd.user_code, compilation_result := some res,
                test_results := res.testResultsF, review_answers := none,
                found_issues := none, improved_code := none, passed := passed,
                attempts := countByTask store task.id + 1,
                time_spent := sd.time_spent }],
           nextId := store.nextId + 1 }) := by
  unfold submit_write_task
  rw [if_neg hv, h]
  rfl

/-- The explicit response and store produced by `_submit_review_task` when
validation passes. -/
lemma submit_review_task_ok_shape (task : Task) (sd : TaskSubmissionRequest)
    (store : Store)
    (hv : ¬ (!pyTruthyList sd.review_answers &&
      !pyTruthyList sd.found_issues) = true) :
    submit_review_task task sd store =
      Except.ok
        ({ success := decide ((0.6 : ℚ) ≤
             (if task.expected_issues.getD [] ≠ [] then
               (((sd.found_issues.getD []).toFinset ∩
                 (task.expected_issues.getD []).toFinset).card : ℚ) /
                 ((task.expected_issues.getD []).length : ℚ)
              else 0)),
           submission_id := store.nextId,
           score := pyRound1
             ((if task.expected_issues.getD [] ≠ [] then
               (((sd.found_issues.getD []).toFinset ∩
                 (task.expected_issues.getD []).toFinset).card : ℚ) /
                 ((task.expected_issues.getD []).length : ℚ)
              else 0) * 100),
           matched_issues := (sd.found_issues.getD []).toFinset ∩
             (task.expected_issues.getD []).toFinset,
           expected_issues := task.expected_issues.getD [],
           found_issues := sd.found_issues.getD [],
           attempts := countByTask store task.id + 1,
           feedback := generate_review_feedback
             ((sd.found_issues.getD []).toFinset ∩
               (task.expected_issues.getD []).toFinset)
             (task.expected_issues.getD []) (sd.found_issues.getD []) },
         { subs := store.subs ++
             [{ id := store.nextId, task_id := task.id, user_code := none,
                compilation_result := none, test_results := none,
                review_answers := sd.review_answers,
                found_issues := sd.found_issues,
                improved_code := sd.improved_code,
                passed := decide ((0.6 : ℚ) ≤
                  (if task.expected_issues.getD [] ≠ [] then
                    (((sd.found_issues.getD []).toFinset ∩
                      (task.expected_issues.getD []).toFinset).card : ℚ) /
                      ((task.expected_issues.getD []).length : ℚ)
                   else 0)),
                attempts := countByTask store task.id + 1,
                time_spent := sd.time_spent }],
           nextId := store.nextId + 1 }) := by
  unfold submit_review_task
  rw [if_neg hv]
  rfl

/-- C1 witness: a Go task with a test source, a clean build and a test
runner exiting 2 after reporting one failing event: the verdict is
`compiled = true` but `passed = false`, and the test phase's flag is
false. -/
theorem c1_write_verdict_witness :
    okP (submit_write_task { baseTask with test_code := some "func TestX" }
        baseReq
        { quietEnv with goEnv := { quietGoEnv with
            testStatus := ProcStatus.exits 2
            testLines := [JLine.event ⟨some "fail"⟩] } }
        emptyStore)
      (fun resp _ =>
        resp.success = (resp.compiled &&
          (if goTestPhase { baseTask with test_code := some "func TestX" } then
            goTestExitZero { quietGoEnv with
              testStatus := ProcStatus.exits 2
              testLines := [JLine.event ⟨some "fail"⟩] }
           else true)) ∧
        (pyTruthyStr ({ baseTask with
            test_code := some "func TestX" } : Task).test_code = false →
          resp.test_results = none) ∧
        (∀ tr, resp.test_results = some tr →
          tr.passed = goTestExitZero { quietGoEnv with
            testStatus := ProcStatus.exits 2
            testLines := [JLine.event ⟨some "fail"⟩] })) :=
  c1_write_verdict { baseTask with test_code := some "func TestX" } baseReq
    { quietEnv with goEnv := { quietGoEnv with
        testStatus := ProcStatus.exits 2
        testLines := [JLine.event ⟨some "fail"⟩] } }
    emptyStore

/-- C4: a write-task submission response exposes hints exactly when it is
not passed, its attempt ordinal is at least 2 and the task defines a
non-empty hint list, in which case it carries the first
`attemptOrdinal − 1` hints; no hints appear on a first attempt or on a
passed submission; and a failed third attempt on a task defining at least
2 hints exposes exactly the first 2. -/
theorem c4_hint_exposure (task : Task) (sd : TaskSubmissionRequest)
    (env : Env) (store : Store) :
    okP (submit_write_task task sd env store) (fun resp _ =>
      resp.hints =
        (if resp.success = false ∧ 2 ≤ resp.attempts ∧ task.hints.getD [] ≠ []
         then some ((task.hints.getD []).take (resp.attempts - 1))
         else none) ∧
      (resp.attempts = 1 → resp.hints = none) ∧
      (resp.success = true → resp.hints = none) ∧
      (resp.success = false → resp.attempts = 3 →
        ∀ l, task.hints = some l → 2 ≤ l.length →
          resp.hints = some (l.take 2) ∧ (l.take 2).length = 2)) := by
  by_cases hv : pyTruthyStr sd.user_code = false
  · simp [submit_write_task, hv]
  · cases hlc : langCompile task (sd.user_code.getD "") env with
    | error e =>
      unfold submit_write_task
      rw [if_neg hv, hlc]
      simp
    | ok p =>
      obtain ⟨res, passed⟩ := p
      rw [submit_write_task_ok_shape task sd env store res passed hlc hv]
      simp only [okP_ok]
      set k := countByTask store task.id with hk
      have hcond : ((!passed && decide (2 ≤ k + 1) && pyTruthyList task.hints)
          = true) ↔
          (passed = false ∧ 2 ≤ k + 1 ∧ task.hints.getD [] ≠ []) := by
        simp [Bool.and_eq_true, Bool.not_eq_true', pyTruthyList_eq_true_iff,
          and_assoc]
      have h1 :
          (if (!passed && decide (2 ≤ k + 1) && pyTruthyList task.hints) = true
           then some ((task.hints.getD []).take (k + 1 - 1)) else none) =
          (if passed = false ∧ 2 ≤ k + 1 ∧ task.hints.getD [] ≠ []
           then some ((task.hints.getD []).take (k + 1 - 1)) else none) :=
        if_congr hcond rfl rfl
      refine ⟨h1, ?_, ?_, ?_⟩
      · intro ha
        rw [h1, if_neg]
        intro hc
        omega
      · intro hs
        rw [h1, if_neg]
        intro hc
        rw [hs] at hc
        exact absurd hc.1 (by simp)
      · intro hs ha l hl hlen
        have hne : task.hints.getD [] ≠ [] := by
          rw [hl]
          intro he
          simp only [Option.getD_some] at he
          subst he
          simp at hlen
        have hk3 : k + 1 = 3 := ha
        have hko : k + 1 - 1 = 2 := by omega
        rw [h1, if_pos ⟨hs, by omega, hne⟩, hko, hl]
        refine ⟨rfl, ?_⟩
        rw [List.length_take]
        omega

/-- C4 witness: a failed third attempt (two prior submissions stored) on a
Go task defining three hints, with a failing build, exposes exactly the
first two hints. -/
theorem c4_hint_exposure_witness :
    okP (submit_write_task
        { baseTask with hints := some ["h1", "h2", "h3"] } baseReq
        { quietEnv with goEnv := { quietGoEnv with
            buildStatus := ProcStatus.exits 1
            buildStderr := "main.go:1: syntax error" } }
        { subs :=
            [{ id := 1, task_id := 1, user_code := some "x",
               compilation_result := none, test_results := none,
               review_answers := none, found_issues := none,
               improved_code := none, passed := false, attempts := 1,
               time_spent := none },
             { id := 2, task_id := 1, user_code := some "y",
               compilation_result := none, test_results := none,
               review_answers := none, found_issues := none,
               improved_code := none, passed := false, attempts := 2,
               time_spent := none }],
          nextId := 3 })
      (fun resp _ =>
        resp.hints =
          (if resp.success = false ∧ 2 ≤ resp.attempts ∧
              ({ baseTask with
                hints := some ["h1", "h2", "h3"] } : Task).hints.getD [] ≠ []
           then some ((({ baseTask with
               hints := some ["h1", "h2", "h3"] } : Task).hints.getD
             []).take (resp.attempts - 1))
           else none) ∧
        (resp.attempts = 1 → resp.hints = none) ∧
        (resp.success = true → resp.hints = none) ∧
        (resp.success = false → resp.attempts = 3 →
          ∀ l, ({ baseTask with
              hints := some ["h1", "h2", "h3"] } : Task).hints = some l →
            2 ≤ l.length →
            resp.hints = some (l.take 2) ∧ (l.take 2).length = 2)) :=
  c4_hint_exposure { baseTask with hints := some ["h1", "h2", "h3"] } baseReq
    { quietEnv with goEnv := { quietGoEnv with
        buildStatus := ProcStatus.exits 1
        buildStderr := "main.go:1: syntax error" } }
    { subs :=
        [{ id := 1, task_id := 1, user_code := some "x",
           compilation_result := none, test_results := none,
           review_answers := none, found_issues := none,
           improved_code := none, passed := false, attempts := 1,
           time_spent := none },
         { id := 2, task_id := 1, user_code := some "y",
           compilation_result := none, test_results := none,
           review_answers := none, found_issues := none,
           improved_code := none, passed := false, attempts := 2,
           time_spent := none }],
      nextId := 3 }

/-- C2: for every review-task submission the engine answers, the matched
set is `foundIssues ∩ expectedIssues` under exact case-sensitive string
equality with set semantics, the submission is passed exactly when the
spec score `|matched| / |expectedIssues|` (0 for empty `expectedIssues`)
is at least 0.60, the reported score is that score scaled to 0–100 and
rounded to one decimal, and an empty `expectedIssues` forces score 0 and
a not-passed submission. -/
theorem c2_review_scoring (task : Task) (sd : TaskSubmissionRequest)
    (store : Store) :
    okP (submit_review_task task sd store) (fun resp _ =>
      resp.matched_issues =
        matchedSpec (sd.found_issues.getD []) (task.expected_issues.getD []) ∧
      resp.success = decide ((0.6 : ℚ) ≤
        scoreSpec (sd.found_issues.getD []) (task.expected_issues.getD [])) ∧
      resp.score = pyRound1
        (scoreSpec (sd.found_issues.getD []) (task.expected_issues.getD [])
          * 100) ∧
      (task.expected_issues.getD [] = [] →
        scoreSpec (sd.found_issues.getD []) (task.expected_issues.getD [])
            = 0 ∧
          resp.success = false)) := by
  by_cases hv : (!pyTruthyList sd.review_answers &&
      !pyTruthyList sd.found_issues) = true
  · simp [submit_review_task, hv]
  · rw [submit_review_task_ok_shape task sd store hv]
    simp only [okP_ok]
    have hsc :
        (if task.expected_issues.getD [] ≠ [] then
          (((sd.found_issues.getD []).toFinset ∩
            (task.expected_issues.getD []).toFinset).card : ℚ) /
            ((task.expected_issues.getD []).length : ℚ)
         else 0) =
        scoreSpec (sd.found_issues.getD []) (task.expected_issues.getD []) := by
      by_cases he : task.expected_issues.getD [] = [] <;>
        simp [scoreSpec, matchedSpec, he]
    refine ⟨rfl, by rw [hsc], by rw [hsc], ?_⟩
    intro he
    have h0 : scoreSpec (sd.found_issues.getD [])
        (task.expected_issues.getD []) = 0 := by
      simp [scoreSpec, he]
    refine ⟨h0, ?_⟩
    rw [hsc, h0]
    norm_num

/-- C2 witness: finding one of three planted defects scores 33.3 and does
not pass; the matched set collapses the duplicated found label. -/
theorem c2_review_scoring_witness :
    okP (submit_review_task
        { baseTask with
          task_type := "review"
          expected_issues := some ["a", "b", "c"] }
        { baseReq with
          user_code := none
          found_issues := some ["a", "a", "zzz"] }
        emptyStore)
      (fun resp _ =>
        resp.matched_issues = matchedSpec
          (({ baseReq with
              user_code := none
              found_issues := some ["a", "a", "zzz"] } :
            TaskSubmissionRequest).found_issues.getD [])
          (({ baseTask with
              task_type := "review"
              expected_issues := some ["a", "b", "c"] } :
            Task).expected_issues.getD []) ∧
        resp.success = decide ((0.6 : ℚ) ≤
          scoreSpec
            (({ baseReq with
                user_code := none
                found_issues := some ["a", "a", "zzz"] } :
              TaskSubmissionRequest).found_issues.getD [])
            (({ baseTask with
                task_type := "review"
                expected_issues := some ["a", "b", "c"] } :
              Task).expected_issues.getD [])) ∧
        resp.score = pyRound1
          (scoreSpec
            (({ baseReq with
                user_code := none
                found_issues := some ["a", "a", "zzz"] } :
              TaskSubmissionRequest).found_issues.getD [])
            (({ baseTask with
                task_type := "review"
                expected_issues := some ["a", "b", "c"] } :
              Task).expected_issues.getD []) * 100) ∧
        (({ baseTask with
            task_type := "review"
            expected_issues := some ["a", "b", "c"] } :
          Task).expected_issues.getD [] = [] →
          scoreSpec
              (({ baseReq with
                  user_code := none
                  found_issues := some ["a", "a", "zzz"] } :
                TaskSubmissionRequest).found_issues.getD [])
              (({ baseTask with
                  task_type := "review"
                  expected_issues := some ["a", "b", "c"] } :
                Task).expected_issues.getD []) = 0 ∧
            resp.success = false)) :=
  c2_review_scoring
    { baseTask with
      task_type := "review"
      expected_issues := some ["a", "b", "c"] }
    { baseReq with
      user_code := none
      found_issues := some ["a", "a", "zzz"] }
    emptyStore

/-- The task's toolchain executable is missing: for a Go task the first
`go` invocation raises `FileNotFoundError`, for a Solidity task the single
`solc` invocation does. -/
def toolchainMissing (task : Task) (env : Env) : Prop :=
  (task.language = "go" ∧ env.goEnv.modInitStatus = ProcStatus.notFound) ∨
  (task.language = "solidity" ∧ env.solEnv.status = ProcStatus.notFound)

/-- The driver's `FileNotFoundError` diagnostic for the task's language. -/
def toolchainNotFoundMsg (task : Task) : String :=
  if task.language = "go" then goNotFoundMsg else solcNotFoundMsg

/-- Environment for the toolchain-missing scenario: the very first `go`
invocation raises `FileNotFoundError`. -/
def c6Env : Env :=
  { goEnv := { quietGoEnv with modInitStatus := ProcStatus.notFound },
    solEnv := quietSolEnv }

/-- Environment in which the `solc` invocation raises `FileNotFoundError`. -/
def c6SolEnv : Env :=
  { goEnv := quietGoEnv,
    solEnv := { status := ProcStatus.notFound, stdout := "", stderr := "" } }

/-- C6 counterexample: with the Go toolchain missing, the grader does NOT
surface the condition distinctly from a learner defect — it persists a
regular submission record with `passed = false` (consuming an attempt,
exactly like a code-quality failure), the only trace being the
toolchain-not-found line inside the ordinary `errors` list; no
`toolchain_unavailable` tag exists anywhere in the outcome. -/
theorem c6_counterexample :
    submit_write_task baseTask baseReq c6Env emptyStore =
      Except.ok
        ({ success := false, submission_id := 1, compiled := false,
           errors := [goNotFoundMsg], output := "", test_results := none,
           attempts := 1, hints := none },
         { subs := [{ id := 1, task_id := 1,
                      user_code := some "package main",
                      compilation_result := some (CompilationResult.goRes
                        { success := false, compiled := false, output := "",
                          errors := [goNotFoundMsg], test_results := none }),
                      test_results := none, review_answers := none,
                      found_issues := none, improved_code := none,
                      passed := false, attempts := 1, time_spent := none }],
           nextId := 2 }) := by
  rfl

/-- C6 amended: for every submission whose toolchain executable is missing
— a Go task with `go` absent or a Solidity task with `solc` absent — the
driver's outcome carries that driver's distinctive toolchain-not-found
diagnostic as its sole error line and `compiled = false`, and the
resulting submission is not passed — but the grader still records it as an
ordinary failed learner attempt (a submission row with `passed = false`
and the attempt ordinal advanced), with no distinct outcome tag. -/
theorem c6_amended (task : Task) (sd : TaskSubmissionRequest) (env : Env)
    (store : Store) (htool : toolchainMissing task env)
    (hcode : pyTruthyStr sd.user_code = true) :
    isOkE (submit_write_task task sd env store) = true ∧
    okP (submit_write_task task sd env store) (fun resp st' =>
      resp.compiled = false ∧ resp.success = false ∧
      resp.errors = [toolchainNotFoundMsg task] ∧
      ∃ sub, st'.subs = store.subs ++ [sub] ∧ sub.passed = false ∧
        sub.attempts = countByTask store task.id + 1) := by
  have hv : ¬ pyTruthyStr sd.user_code = false := by simp [hcode]
  rcases htool with ⟨hlang, hmiss⟩ | ⟨hlang, hmiss⟩
  · have hlc : langCompile task (sd.user_code.getD "") env =
        Except.ok (CompilationResult.goRes
          { success := false, compiled := false, output := "",
            errors := [goNotFoundMsg], test_results := none }, false) := by
      unfold langCompile
      rw [if_pos (by simp [hlang])]
      simp [compile_go, hmiss]
    rw [submit_write_task_ok_shape task sd env store _ _ hlc hv]
    refine ⟨rfl, rfl, rfl, ?_, _, rfl, rfl, rfl⟩
    simp [CompilationResult.errorsF, toolchainNotFoundMsg, hlang]
  · have hlc : langCompile task (sd.user_code.getD "") env =
        Except.ok (CompilationResult.solRes
          { success := false, compiled := false, output := "",
            errors := [solcNotFoundMsg], abi := none, bytecode := none },
          false) := by
      unfold langCompile
      rw [if_neg (by simp [hlang]), if_pos (by simp [hlang])]
      simp [compile_solidity, hmiss]
    rw [submit_write_task_ok_shape task sd env store _ _ hlc hv]
    refine ⟨rfl, rfl, rfl, ?_, _, rfl, rfl, rfl⟩
    simp [CompilationResult.errorsF, toolchainNotFoundMsg, hlang]

/-- C6 amended witness: the concrete missing-`go` run from the
counterexample and a concrete missing-`solc` run on a Solidity task both
satisfy the amended statement. -/
theorem c6_amended_witness :
    (isOkE (submit_write_task baseTask baseReq c6Env emptyStore) = true ∧
     okP (submit_write_task baseTask baseReq c6Env emptyStore)
       (fun resp st' =>
         resp.compiled = false ∧ resp.success = false ∧
         resp.errors = [toolchainNotFoundMsg baseTask] ∧
         ∃ sub, st'.subs = emptyStore.subs ++ [sub] ∧ sub.passed = false ∧
           sub.attempts = countByTask emptyStore baseTask.id + 1)) ∧
    (isOkE (submit_write_task { baseTask with language := "solidity" }
        baseReq c6SolEnv emptyStore) = true ∧
     okP (submit_write_task { baseTask with language := "solidity" }
         baseReq c6SolEnv emptyStore)
       (fun resp st' =>
         resp.compiled = false ∧ resp.success = false ∧
         resp.errors = [toolchainNotFoundMsg
           { baseTask with language := "solidity" }] ∧
         ∃ sub, st'.subs = emptyStore.subs ++ [sub] ∧ sub.passed = false ∧
           sub.attempts = countByTask emptyStore
             ({ baseTask with language := "solidity" } : Task).id + 1)) :=
  ⟨c6_amended baseTask baseReq c6Env emptyStore (Or.inl ⟨rfl, rfl⟩)
     (by decide),
   c6_amended { baseTask with language := "solidity" } baseReq c6SolEnv
     emptyStore (Or.inr ⟨rfl, rfl⟩) (by decide)⟩

/-- Environment for the test-phase-timeout scenario: module init and build
complete, the test run exceeds its limit. -/
def c7Env : GoEnv := { quietGoEnv with testStatus := ProcStatus.timedOut }

/-- C7 counterexample: a test invocation exceeding the timeout yields an
outcome tagged with the timeout message whose `compiled` flag is `true`,
not `false` as the claim states (the flag was set when `go build`
succeeded, and the exception handler does not reset it). -/
theorem c7_counterexample :
    compile_go c7Env "package main" (some "func TestX") 30 =
      { success := false, compiled := true, output := "",
        errors := [timeoutMsg 30], test_results := none } ∧
    (compile_go c7Env "package main" (some "func TestX") 30).compiled
      = true := by
  exact ⟨rfl, rfl⟩

/-- C7 amended: a compile-phase invocation (`go mod init`, `go build`, or
the single `solc` run) exceeding the configured timeout yields an outcome
tagged with the timeout message and `compiled = false`; a test-phase
invocation exceeding it yields the same tag but leaves `compiled = true`
(the build had already succeeded).  In every case `success = false` and no
test results are recorded. -/
theorem c7_amended (g : GoEnv) (se : SolEnv) (code : String)
    (tc : Option String) (timeout : Nat) :
    (goCompilePhaseTimeout g →
      compile_go g code tc timeout =
        { success := false, compiled := false, output := "",
          errors := [timeoutMsg timeout], test_results := none }) ∧
    (goTestPhaseTimeout g tc →
      compile_go g code tc timeout =
        { success := false, compiled := true, output := g.buildStdout,
          errors := [timeoutMsg timeout], test_results := none }) ∧
    (se.status = ProcStatus.timedOut →
      compile_solidity se code timeout =
        { success := false, compiled := false, output := "",
          errors := [timeoutMsg timeout], abi := none,
          bytecode := none }) := by
  refine ⟨?_, ?_, ?_⟩
  · rintro (hmi | ⟨c, hmi, hbs⟩)
    · simp [compile_go, hmi]
    · simp [compile_go, hmi, hbs]
  · rintro ⟨c, hmi, hbs, htc, hts⟩
    simp [compile_go, hmi, hbs, htc, hts]
  · intro hs
    simp [compile_solidity, hs]

/-- C7 amended witness: the concrete test-phase timeout keeps
`compiled = true`, and a concrete `solc` timeout has `compiled = false`. -/
theorem c7_amended_witness :
    compile_go c7Env "package main" (some "func TestX") 30 =
      { success := false, compiled := true, output := "",
        errors := [timeoutMsg 30], test_results := none } ∧
    compile_solidity { status := ProcStatus.timedOut, stdout := "",
                       stderr := "" } "contract C" 30 =
      { success := false, compiled := false, output := "",
        errors := [timeoutMsg 30], abi := none, bytecode := none } :=
  ⟨(c7_amended c7Env { status := ProcStatus.timedOut, stdout := "",
                       stderr := "" } "package main" (some "func TestX") 30).2.1
      ⟨0, rfl, rfl, by decide, rfl⟩,
   (c7_amended c7Env { status := ProcStatus.timedOut, stdout := "",
                       stderr := "" } "contract C" (some "func TestX") 30).2.2 rfl⟩

/-- A review task whose stored expected-issue list is empty. -/
def c9Task : Task :=
  { baseTask with
    task_type := "review"
    expected_issues := some [] }

/-- A review request that reports one (unmatched) issue. -/
def c9Req : TaskSubmissionRequest :=
  { baseReq with
    user_code := none
    found_issues := some ["x"] }

/-- C9 counterexample: with empty `expectedIssues` the score is 0 (< 0.60)
and the submission is not passed, yet the feedback is the congratulatory
tier, not the remedial one the claim requires for score < 0.60 — so the
feedback is not determined by the score alone. -/
theorem c9_counterexample :
    submit_review_task c9Task c9Req emptyStore =
      Except.ok
        ({ success := false, submission_id := 1, score := 0,
           matched_issues := ∅, expected_issues := [],
           found_issues := ["x"], attempts := 1,
           feedback := Feedback.fullMatch },
         { subs := [{ id := 1, task_id := 1, user_code := none,
                      compilation_result := none, test_results := none,
                      review_answers := none, found_issues := some ["x"],
                      improved_code := none, passed := false, attempts := 1,
                      time_spent := none }],
           nextId := 2 }) ∧
    Feedback.fullMatch ≠ Feedback.weakMatch 0 0 ∅ := by
  constructor
  · rw [submit_review_task_ok_shape c9Task c9Req emptyStore (by decide)]
    simp only [c9Task, c9Req, baseTask, baseReq, emptyStore]
    norm_num [pyRound1, roundHalfEven, generate_review_feedback, countByTask]
  · simp

/-- C9 amended: for non-empty `expectedIssues` the feedback is determined
by the score alone — score 1 (full match) if and only if the
congratulatory tier, 0.60 ≤ score < 1 gives the partial-credit tier naming
the missed issues, and score < 0.60 gives the remedial tier naming the
missed issues; for empty `expectedIssues` the feedback is the
congratulatory tier even though the score is 0. -/
theorem c9_amended (task : Task) (sd : TaskSubmissionRequest)
    (store : Store) :
    okP (submit_review_task task sd store) (fun resp _ =>
      (task.expected_issues.getD [] = [] →
        resp.feedback = Feedback.fullMatch) ∧
      (task.expected_issues.getD [] ≠ [] →
        ((resp.feedback = Feedback.fullMatch ↔
          scoreSpec (sd.found_issues.getD [])
            (task.expected_issues.getD []) = 1) ∧
         ((0.6 : ℚ) ≤ scoreSpec (sd.found_issues.getD [])
              (task.expected_issues.getD []) ∧
            scoreSpec (sd.found_issues.getD [])
              (task.expected_issues.getD []) ≠ 1 →
           resp.feedback = Feedback.goodMatch
             (matchedSpec (sd.found_issues.getD [])
               (task.expected_issues.getD [])).card
             (task.expected_issues.getD []).length
             ((task.expected_issues.getD []).toFinset \
               matchedSpec (sd.found_issues.getD [])
                 (task.expected_issues.getD []))) ∧
         (scoreSpec (sd.found_issues.getD [])
             (task.expected_issues.getD []) < (0.6 : ℚ) →
           resp.feedback = Feedback.weakMatch
             (matchedSpec (sd.found_issues.getD [])
               (task.expected_issues.getD [])).card
             (task.expected_issues.getD []).length
             ((task.expected_issues.getD []).toFinset \
               matchedSpec (sd.found_issues.getD [])
                 (task.expected_issues.getD [])))))) := by
  by_cases hv : (!pyTruthyList sd.review_answers &&
      !pyTruthyList sd.found_issues) = true
  · simp [submit_review_task, hv]
  · rw [submit_review_task_ok_shape task sd store hv]
    simp only [okP_ok, matchedSpec]
    constructor
    · intro he
      simp [generate_review_feedback, he]
    · intro he
      have hn : 0 < ((task.expected_issues.getD []).length : ℚ) := by
        exact_mod_cast List.length_pos.mpr he
      have hn0 : ((task.expected_issues.getD []).length : ℚ) ≠ 0 :=
        ne_of_gt hn
      have hscore : scoreSpec (sd.found_issues.getD [])
          (task.expected_issues.getD []) =
          ((((sd.found_issues.getD []).toFinset ∩
            (task.expected_issues.getD []).toFinset).card : ℚ)) /
            (((task.expected_issues.getD []).length : ℚ)) := by
        simp [scoreSpec, matchedSpec, he]
      refine ⟨?_, ?_, ?_⟩
      · by_cases hmn : ((sd.found_issues.getD []).toFinset ∩
            (task.expected_issues.getD []).toFinset).card =
            (task.expected_issues.getD []).length
        · have hs1 : scoreSpec (sd.found_issues.getD [])
              (task.expected_issues.getD []) = 1 := by
            rw [hscore, hmn]
            exact div_self hn0
          simp [generate_review_feedback, hmn, hs1]
        · have hs1 : scoreSpec (sd.found_issues.getD [])
              (task.expected_issues.getD []) ≠ 1 := by
            rw [hscore]
            intro hcon
            exact hmn (by exact_mod_cast (div_eq_one_iff_eq hn0).mp hcon)
          have hfb : generate_review_feedback
              ((sd.found_issues.getD []).toFinset ∩
                (task.expected_issues.getD []).toFinset)
              (task.expected_issues.getD []) (sd.found_issues.getD [])
              ≠ Feedback.fullMatch := by
            unfold generate_review_feedback
            split_ifs with h1 h2
            · exact absurd (by simpa using h1) hmn
            · simp
            · simp
          exact iff_of_false hfb hs1
      · rintro ⟨hge, hne⟩
        have hmn : ((sd.found_issues.getD []).toFinset ∩
            (task.expected_issues.getD []).toFinset).card ≠
            (task.expected_issues.getD []).length := by
          intro hcon
          exact hne (by rw [hscore, hcon]; exact div_self hn0)
        have hcond : (((task.expected_issues.getD []).length : ℚ)) * 0.6 ≤
            ((((sd.found_issues.getD []).toFinset ∩
              (task.expected_issues.getD []).toFinset).card : ℚ)) := by
          rw [hscore] at hge
          have h6 := (le_div_iff hn).mp hge
          linarith
        simp [generate_review_feedback, hmn, hcond]
      · intro hlt
        have hs1 : scoreSpec (sd.found_issues.getD [])
            (task.expected_issues.getD []) ≠ 1 := by
          intro hcon
          rw [hcon] at hlt
          norm_num at hlt
        have hmn : ((sd.found_issues.getD []).toFinset ∩
            (task.expected_issues.getD []).toFinset).card ≠
            (task.expected_issues.getD []).length := by
          intro hcon
          exact hs1 (by rw [hscore, hcon]; exact div_self hn0)
        have hcond : ¬ ((((task.expected_issues.getD []).length : ℚ)) * 0.6 ≤
            ((((sd.found_issues.getD []).toFinset ∩
              (task.expected_issues.getD []).toFinset).card : ℚ))) := by
          rw [hscore] at hlt
          have h6 := (div_lt_iff hn).mp hlt
          intro hcon
          linarith
        simp [generate_review_feedback, hmn, hcond]

/-- C9 amended witness: finding two of three planted defects (score 2/3,
between 0.60 and 1) lands in the partial-credit tier naming the one
missed issue. -/
theorem c9_amended_witness :
    okP (submit_review_task
        { baseTask with
          task_type := "review"
          expected_issues := some ["a", "b", "c"] }
        { baseReq with
          user_code := none
          found_issues := some ["a", "b"] }
        emptyStore)
      (fun resp _ =>
        (({ baseTask with
            task_type := "review"
            expected_issues := some ["a", "b", "c"] } :
          Task).expected_issues.getD [] = [] →
          resp.feedback = Feedback.fullMatch) ∧
        (({ baseTask with
            task_type := "review"
            expected_issues := some ["a", "b", "c"] } :
          Task).expected_issues.getD [] ≠ [] →
          ((resp.feedback = Feedback.fullMatch ↔
            scoreSpec
              (({ baseReq with
                  user_code := none
                  found_issues := some ["a", "b"] } :
                TaskSubmissionRequest).found_issues.getD [])
              (({ baseTask with
                  task_type := "review"
                  expected_issues := some ["a", "b", "c"] } :
                Task).expected_issues.getD []) = 1) ∧
           ((0.6 : ℚ) ≤ scoreSpec
                (({ baseReq with
                    user_code := none
                    found_issues := some ["a", "b"] } :
                  TaskSubmissionRequest).found_issues.getD [])
                (({ baseTask with
                    task_type := "review"
                    expected_issues := some ["a", "b", "c"] } :
                  Task).expected_issues.getD []) ∧
              scoreSpec
                (({ baseReq with
                    user_code := none
                    found_issues := some ["a", "b"] } :
                  TaskSubmissionRequest).found_issues.getD [])
                (({ baseTask with
                    task_type := "review"
                    expected_issues := some ["a", "b", "c"] } :
                  Task).expected_issues.getD []) ≠ 1 →
             resp.feedback = Feedback.goodMatch
               (matchedSpec
                 (({ baseReq with
                     user_code := none
                     found_issues := some ["a", "b"] } :
                   TaskSubmissionRequest).found_issues.getD [])
                 (({ baseTask with
                     task_type := "review"
                     expected_issues := some ["a", "b", "c"] } :
                   Task).expected_issues.getD [])).card
               (({ baseTask with
                   task_type := "review"
                   expected_issues := some ["a", "b", "c"] } :
                 Task).expected_issues.getD []).length
               ((({ baseTask with
                   task_type := "review"
                   expected_issues := some ["a", "b", "c"] } :
                 Task).expected_issues.getD []).toFinset \
                 matchedSpec
                   (({ baseReq with
                       user_code := none
                       found_issues := some ["a", "b"] } :
                     TaskSubmissionRequest).found_issues.getD [])
                   (({ baseTask with
                       task_type := "review"
                       expected_issues := some ["a", "b", "c"] } :
                     Task).expected_issues.getD []))) ∧
           (scoreSpec
               (({ baseReq with
                   user_code := none
                   found_issues := some ["a", "b"] } :
                 TaskSubmissionRequest).found_issues.getD [])
               (({ baseTask with
                   task_type := "review"
                   expected_issues := some ["a", "b", "c"] } :
                 Task).expected_issues.getD []) < (0.6 : ℚ) →
             resp.feedback = Feedback.weakMatch
               (matchedSpec
                 (({ baseReq with
                     user_code := none
                     found_issues := some ["a", "b"] } :
                   TaskSubmissionRequest).found_issues.getD [])
                 (({ baseTask with
                     task_type := "review"
                     expected_issues := some ["a", "b", "c"] } :
                   Task).expected_issues.getD [])).card
               (({ baseTask with
                   task_type := "review"
                   expected_issues := some ["a", "b", "c"] } :
                 Task).expected_issues.getD []).length
               ((({ baseTask with
                   task_type := "review"
                   expected_issues := some ["a", "b", "c"] } :
                 Task).expected_issues.getD []).toFinset \
                 matchedSpec
                   (({ baseReq with
                       user_code := none
                       found_issues := some ["a", "b"] } :
                     TaskSubmissionRequest).found_issues.getD [])
                   (({ baseTask with
                       task_type := "review"
                       expected_issues := some ["a", "b", "c"] } :
                     Task).expected_issues.getD [])))))) :=
  c9_amended
    { baseTask with
      task_type := "review"
      expected_issues := some ["a", "b", "c"] }
    { baseReq with
      user_code := none
      found_issues := some ["a", "b"] }
    emptyStore

end ClaudeTests
